import Mathlib

/-!
Verification of the test lifecycle and resource-cleanup discipline of a
Sendbird QA test-automation repository.

The repository is glue code around a vendor SDK / REST API.  The parts that
carry verifiable behaviour are embedded shallowly below:

* the suite teardown hooks (`afterAll` / `afterEach`) that issue best-effort
  delete/leave calls for every created fixture, with `try/catch` blocks that
  swallow cleanup errors (channel-api.spec.ts, the user-api suite, the SDK
  message suite);
* the promise wrapper around callback-style vendor calls
  (`new Promise((resolve, reject) => op.onSucceeded(resolve).onFailed(reject))`);
* the identifier generator
  ``prefix + "_" + Date.now() + "_" + Math.random().toString(36).substring(7)``;
* the axios client configuration (base URL derived from the application id,
  static `Api-Token` header, JSON content type) and the request builders of
  `UserAPI` / `ChannelAPI` / `MessageAPI`;
* the SDK session harness (`initSendbird` / `connectUser` / `disconnectUser`)
  with its module-level instance variable;
* the negative-path test assertions matching vendor error codes against
  allow-lists.

Effectful vendor behaviour (whether a given remote call resolves or rejects)
is passed in as an explicit parameter; a computation records the trace of
vendor calls it issued together with its outcome.
-/

/-! ## Teardown traces (claims C1, C2, C3)

A teardown hook is an async function whose `await`ed vendor calls can
resolve or reject.  `Trace α` records the sequence of vendor calls actually
issued - as pairs (operation name, argument) - and the overall outcome:
`Except.ok` when the hook returns normally, `Except.error` when an exception
escapes it.  `Trace.bind` models sequential `await`: once a step throws,
later calls are never issued.
-/

/-- Outcome of one awaited vendor call: the JS promise either resolves
(modelled `Except.ok ()`) or rejects with an error (modelled `Except.error`). -/
abbrev CallResult := Except String Unit

/-- Trace of an async teardown computation: the vendor calls issued, in
order, as (operation name, argument) pairs, and the overall outcome. -/
structure Trace (α : Type) where
  calls : List (String × String)
  result : Except String α

/-- Computation that issues no vendor call and returns normally. -/
def Trace.pure {α : Type} (a : α) : Trace α :=
  ⟨[], Except.ok a⟩

/-- Sequential composition of async steps: if the first step throws, the
second step's calls are never issued and the exception propagates. -/
def Trace.bind {α β : Type} (x : Trace α) (f : α → Trace β) : Trace β :=
  match x.result with
  | Except.error e => ⟨x.calls, Except.error e⟩
  | Except.ok a => ⟨x.calls ++ (f a).calls, (f a).result⟩

/-- One awaited vendor call: the call named `op` on `arg` is issued
(recorded in the trace) and its outcome is whatever the remote behaviour
`beh` yields for `arg`. -/
def vendorCall (op : String) (beh : String → CallResult) (arg : String) : Trace Unit :=
  ⟨[(op, arg)], beh arg⟩

/-- Embedding of a JS `try { ... } catch (error) { /* ignore */ }` block:
the calls issued inside the block stand, any exception is swallowed, and
execution continues normally. -/
def tryIgnore (x : Trace Unit) : Trace Unit :=
  ⟨x.calls, Except.ok ()⟩

/-- Embedding of the per-handle cleanup loop
`for (const h of handles) { try { await del(h) } catch (error) { } }`
found in channel-api.spec.ts (afterAll, channel-deletion loop) and in the
user-api suite (afterEach): each iteration issues one delete call for its
handle and swallows its failure. -/
def deleteEachTry (op : String) (beh : String → CallResult) : List String → Trace Unit
  | [] => Trace.pure ()
  | h :: hs => Trace.bind (tryIgnore (vendorCall op beh h)) (fun _ => deleteEachTry op beh hs)

/-- Embedding of the `afterAll` hook of "Channel API - Create Channel Tests"
(channel-api.spec.ts lines 29-43): loop over `createdChannelUrls` deleting
each channel with a per-iteration try/catch, then a single try/catch block
deleting the two suite users one after the other. -/
def channelCreateAfterAll (createdChannelUrls : List String)
    (testUserId testUserId2 : String)
    (chanBeh userBeh : String → CallResult) : Trace Unit :=
  Trace.bind (deleteEachTry "ChannelAPI.delete" chanBeh createdChannelUrls) (fun _ =>
    tryIgnore (Trace.bind (vendorCall "UserAPI.delete" userBeh testUserId) (fun _ =>
      vendorCall "UserAPI.delete" userBeh testUserId2)))

/-- Embedding of the `afterEach` hook of "User API - Create User Tests"
(user-api suite lines 27-36): loop over `createdUserIds` deleting each user
with a per-iteration try/catch, then `createdUserIds.length = 0` empties the
collection; the hook's trace and the emptied collection are returned. -/
def userCreateAfterEach (createdUserIds : List String)
    (userBeh : String → CallResult) : Trace Unit × List String :=
  (deleteEachTry "UserAPI.delete" userBeh createdUserIds, [])

/-- Embedding of the `afterAll` hook of "SDK Message Tests" (lines 38-49):
a try/catch around open-channel exit then delete, a try/catch around
group-channel leave, and finally an unguarded `await sb.disconnect()`. -/
def sdkMessageAfterAll (exitBeh deleteBeh leaveBeh disconnectBeh : CallResult) : Trace Unit :=
  Trace.bind (tryIgnore (Trace.bind ⟨[("openChannel.exit", "")], exitBeh⟩ (fun _ =>
      ⟨[("openChannel.delete", "")], deleteBeh⟩)))
    (fun _ => Trace.bind (tryIgnore ⟨[("groupChannel.leave", "")], leaveBeh⟩)
      (fun _ => ⟨[("sb.disconnect", "")], disconnectBeh⟩))

/-- Outcome of a test body as seen by the test runner. -/
inductive TestOutcome
  | passed
  | failed
  | threw

/-- Modelled from the spec: the test runner (Playwright / Jest, not part of
src/) invokes a suite's registered teardown hook regardless of the test
outcome - "failures here must not prevent teardown from running". -/
def runnerTeardown (outcome : TestOutcome) (hook : Trace Unit) : Trace Unit :=
  hook

theorem tryIgnore_result (x : Trace Unit) : (tryIgnore x).result = Except.ok () :=
  rfl

theorem deleteEachTry_calls (op : String) (beh : String → CallResult) (hs : List String) :
    (deleteEachTry op beh hs).calls = hs.map (fun h => (op, h)) := by
  induction hs with
  | nil => rfl
  | cons h t ih => simp [deleteEachTry, Trace.bind, tryIgnore, vendorCall, ih]

theorem deleteEachTry_result (op : String) (beh : String → CallResult) (hs : List String) :
    (deleteEachTry op beh hs).result = Except.ok () := by
  induction hs with
  | nil => rfl
  | cons h t ih => simp [deleteEachTry, Trace.bind, tryIgnore, ih]

/-- C1: for every sequence of fixture handles recorded in a suite's
created-resource collection and every test outcome (pass, fail, throw), the
teardown hook attempts exactly one cleanup call per recorded handle, in
insertion (creation) order - `N` handles give `N` cleanup calls.  Stated for
the channel-suite `afterAll` (its cleanup calls for the collection are the
channel deletions) and for the user-suite `afterEach`. -/
theorem teardown_attempts_one_cleanup_per_handle_in_order
    (outcome : TestOutcome)
    (createdChannelUrls : List String) (u1 u2 : String)
    (chanBeh userBeh : String → CallResult)
    (createdUserIds : List String) (userBeh2 : String → CallResult) :
    ((runnerTeardown outcome
        (channelCreateAfterAll createdChannelUrls u1 u2 chanBeh userBeh)).calls.filter
        (fun c => c.1 == "ChannelAPI.delete")
      = createdChannelUrls.map (fun u => ("ChannelAPI.delete", u)))
    ∧ ((runnerTeardown outcome (userCreateAfterEach createdUserIds userBeh2).1).calls
      = createdUserIds.map (fun i => ("UserAPI.delete", i))) := by
  constructor
  · have hcalls : (channelCreateAfterAll createdChannelUrls u1 u2 chanBeh userBeh).calls
        = createdChannelUrls.map (fun u => ("ChannelAPI.delete", u))
          ++ (tryIgnore (Trace.bind (vendorCall "UserAPI.delete" userBeh u1) (fun _ =>
              vendorCall "UserAPI.delete" userBeh u2))).calls := by
      simp [channelCreateAfterAll, Trace.bind, deleteEachTry_result, deleteEachTry_calls]
    have husers : ∀ c ∈ (tryIgnore (Trace.bind (vendorCall "UserAPI.delete" userBeh u1) (fun _ =>
        vendorCall "UserAPI.delete" userBeh u2))).calls, c.1 = "UserAPI.delete" := by
      intro c hc
      simp only [tryIgnore, Trace.bind, vendorCall] at hc
      cases hbeh : userBeh u1 with
      | error e =>
        rw [hbeh] at hc
        simp at hc
        simp [hc]
      | ok a =>
        rw [hbeh] at hc
        simp at hc
        rcases hc with hc | hc <;> simp [hc]
    rw [runnerTeardown, hcalls, List.filter_append]
    have h1 : (createdChannelUrls.map (fun u => ("ChannelAPI.delete", u))).filter
        (fun c => c.1 == "ChannelAPI.delete")
        = createdChannelUrls.map (fun u => ("ChannelAPI.delete", u)) := by
      rw [List.filter_eq_self]
      intro a ha
      rcases List.mem_map.mp ha with ⟨u, _, rfl⟩
      simp
    have h2 : ((tryIgnore (Trace.bind (vendorCall "UserAPI.delete" userBeh u1) (fun _ =>
        vendorCall "UserAPI.delete" userBeh u2))).calls).filter
        (fun c => c.1 == "ChannelAPI.delete") = [] := by
      rw [List.filter_eq_nil_iff]
      intro c hc
      have := husers c hc
      simp [this]
    rw [h1, h2, List.append_nil]
  · exact deleteEachTry_calls "UserAPI.delete" userBeh2 createdUserIds

/-- C2 (counterexample): the claim "a failure of the cleanup call for handle
i never prevents the cleanup attempt for handle i+1" is false for the two
suite users of the channel-suite `afterAll`: they are deleted one after the
other inside a single try/catch block, so when deleting the first user
rejects, the delete call for the second user is never issued. -/
theorem cleanup_failure_blocks_next_handle_counterexample :
    ((channelCreateAfterAll [] "owner" "member"
        (fun _ => Except.ok ())
        (fun u => if u = "owner" then Except.error "boom" else Except.ok ())).calls
      = [("UserAPI.delete", "owner")])
    ∧ ("UserAPI.delete", "member") ∉ (channelCreateAfterAll [] "owner" "member"
        (fun _ => Except.ok ())
        (fun u => if u = "owner" then Except.error "boom" else Except.ok ())).calls := by
  constructor
  · simp [channelCreateAfterAll, deleteEachTry, Trace.pure, Trace.bind, tryIgnore, vendorCall]
  · simp [channelCreateAfterAll, deleteEachTry, Trace.pure, Trace.bind, tryIgnore, vendorCall]

/-- C2 (amended): within the per-handle guarded cleanup loop over the
created-resource collection, the cleanup attempt for handle i+1 is issued
for every remote behaviour - in particular when the cleanup call for handle
i (or any earlier handle) rejects. -/
theorem cleanup_attempt_next_handle_despite_failure
    (op : String) (beh : String → CallResult) (hs : List String) (i : Nat)
    (h : i + 1 < hs.length) :
    (op, hs.get ⟨i + 1, h⟩) ∈ (deleteEachTry op beh hs).calls := by
  rw [deleteEachTry_calls]
  exact List.mem_map_of_mem _ (hs.get_mem _ h)

/-- Witness for the C2 amended theorem: with two recorded channels where
deleting the first rejects, the delete call for the second is still issued. -/
theorem cleanup_attempt_next_handle_despite_failure_witness :
    ("ChannelAPI.delete", "chan_b") ∈
      (deleteEachTry "ChannelAPI.delete"
        (fun u => if u = "chan_a" then Except.error "already deleted" else Except.ok ())
        ["chan_a", "chan_b"]).calls :=
  cleanup_attempt_next_handle_despite_failure "ChannelAPI.delete"
    (fun u => if u = "chan_a" then Except.error "already deleted" else Except.ok ())
    ["chan_a", "chan_b"] 0 (by decide)

/-- C3 (counterexample): the claim "every teardown phase never throws, for
every behaviour of the underlying calls" is false: the `afterAll` of the SDK
message suite awaits `sb.disconnect()` outside any try/catch, so a rejected
disconnect propagates out of the teardown. -/
theorem teardown_never_throws_counterexample :
    (sdkMessageAfterAll (Except.ok ()) (Except.ok ()) (Except.ok ())
        (Except.error "ConnectionError")).result
      = Except.error "ConnectionError" := by
  rfl

/-- C3 (amended): every failure of the guarded cleanup calls is swallowed:
the channel-suite `afterAll` and the user-suite `afterEach` complete
normally for every behaviour of the delete calls, and the SDK message suite
`afterAll` completes normally for every behaviour of the exit/delete/leave
cleanup calls whenever its final unguarded `sb.disconnect()` resolves. -/
theorem teardown_swallows_guarded_cleanup_errors
    (urls : List String) (u1 u2 : String) (chanBeh userBeh : String → CallResult)
    (ids : List String) (userBeh2 : String → CallResult)
    (exitBeh deleteBeh leaveBeh : CallResult) :
    ((channelCreateAfterAll urls u1 u2 chanBeh userBeh).result = Except.ok ())
    ∧ ((userCreateAfterEach ids userBeh2).1.result = Except.ok ())
    ∧ ((sdkMessageAfterAll exitBeh deleteBeh leaveBeh (Except.ok ())).result
        = Except.ok ()) := by
  refine ⟨?_, ?_, ?_⟩
  · simp [channelCreateAfterAll, Trace.bind, deleteEachTry_result, tryIgnore]
  · exact deleteEachTry_result "UserAPI.delete" userBeh2 ids
  · rfl

/-! ## Promise-wrapping of callback APIs (claim C4)

The SDK suites wrap the callback-style `sendUserMessage` vendor call as
`new Promise((resolve, reject) => op.onSucceeded(msg => resolve(msg)).onFailed(err => reject(err)))`.
JS promise semantics: `resolve` / `reject` settle the promise only from the
pending state; on an already settled promise they are no-ops.
-/

/-- State of a JS promise. -/
inductive PromiseState (α ε : Type)
  | pending
  | resolved (a : α)
  | rejected (e : ε)

/-- JS `resolve`: settles a pending promise with the value; a no-op on an
already settled promise. -/
def promiseResolve {α ε : Type} (s : PromiseState α ε) (a : α) : PromiseState α ε :=
  match s with
  | PromiseState.pending => PromiseState.resolved a
  | s => s

/-- JS `reject`: settles a pending promise with the error; a no-op on an
already settled promise. -/
def promiseReject {α ε : Type} (s : PromiseState α ε) (e : ε) : PromiseState α ε :=
  match s with
  | PromiseState.pending => PromiseState.rejected e
  | s => s

/-- Firing of one of the two vendor callbacks registered by the wrapper. -/
inductive CallbackEvent (α ε : Type)
  | succeeded (a : α)
  | failed (e : ε)

/-- Embedding of the wrapper body: the `onSucceeded` callback forwards its
result to `resolve`, the `onFailed` callback forwards its error to
`reject`. -/
def wrapperStep {α ε : Type} (s : PromiseState α ε) (ev : CallbackEvent α ε) :
    PromiseState α ε :=
  match ev with
  | CallbackEvent.succeeded a => promiseResolve s a
  | CallbackEvent.failed e => promiseReject s e

/-- State of the wrapper's promise after a sequence of callback firings,
starting from the freshly constructed (pending) promise. -/
def runWrapper {α ε : Type} (events : List (CallbackEvent α ε)) : PromiseState α ε :=
  events.foldl wrapperStep PromiseState.pending

theorem foldl_wrapperStep_resolved {α ε : Type} (a : α)
    (evs : List (CallbackEvent α ε)) :
    evs.foldl wrapperStep (PromiseState.resolved a) = PromiseState.resolved a := by
  induction evs with
  | nil => rfl
  | cons ev t ih => cases ev <;> simpa [wrapperStep, promiseResolve, promiseReject] using ih

theorem foldl_wrapperStep_rejected {α ε : Type} (e : ε)
    (evs : List (CallbackEvent α ε)) :
    evs.foldl wrapperStep (PromiseState.rejected e) = PromiseState.rejected e := by
  induction evs with
  | nil => rfl
  | cons ev t ih => cases ev <;> simpa [wrapperStep, promiseResolve, promiseReject] using ih

/-- C4: the wrapped promise settles exactly once, never both ways: the first
callback firing settles it - a success firing resolves it with the result, a
failure firing rejects it with the error - and every later firing (of either
callback) leaves the settled state unchanged. -/
theorem promise_wrapper_settles_exactly_once {α ε : Type} (a : α) (e : ε)
    (rest evs : List (CallbackEvent α ε)) :
    (runWrapper (CallbackEvent.succeeded a :: rest) = PromiseState.resolved a)
    ∧ (runWrapper (CallbackEvent.failed e :: rest) = PromiseState.rejected e)
    ∧ (evs.foldl wrapperStep (PromiseState.resolved a) = PromiseState.resolved a)
    ∧ (evs.foldl wrapperStep (PromiseState.rejected e) = PromiseState.rejected e) := by
  refine ⟨?_, ?_, foldl_wrapperStep_resolved a evs, foldl_wrapperStep_rejected e evs⟩
  · show List.foldl wrapperStep (wrapperStep PromiseState.pending
      (CallbackEvent.succeeded a)) rest = PromiseState.resolved a
    rw [show wrapperStep (PromiseState.pending : PromiseState α ε)
      (CallbackEvent.succeeded a) = PromiseState.resolved a from rfl]
    exact foldl_wrapperStep_resolved a rest
  · show List.foldl wrapperStep (wrapperStep PromiseState.pending
      (CallbackEvent.failed e)) rest = PromiseState.rejected e
    rw [show wrapperStep (PromiseState.pending : PromiseState α ε)
      (CallbackEvent.failed e) = PromiseState.rejected e from rfl]
    exact foldl_wrapperStep_rejected e rest

/-! ## Identifier generation (claims C5, C6)

`generateTestId` (sendbird-api.ts lines 132-134, and an identical helper in
the SDK session harness) is the template literal
``prefix + "_" + Date.now() + "_" + Math.random().toString(36).substring(7)``.
The effectful inputs are made explicit: the millisecond timestamp read by
`Date.now()`, and the base-36 fraction digits that `toString(36)` prints for
the value returned by `Math.random()`.
-/

/-- Character JS uses for a base-36 digit: `0`-`9` then `a`-`z`. -/
def base36Char (d : Fin 36) : Char :=
  if d.val < 10 then Char.ofNat (48 + d.val) else Char.ofNat (87 + d.val)

/-- Embedding of the JS default number-to-string conversion for the integer
returned by `Date.now()`: its decimal digit string, most significant digit
first (and `"0"` for zero). -/
def jsNatToString (n : Nat) : String :=
  if n = 0 then "0"
  else String.mk (((Nat.digits 10 n).reverse).map (fun d => Char.ofNat (48 + d)))

/-- Embedding of `x.toString(36)` for the fractional value returned by
`Math.random()`: `"0."` followed by the base-36 fraction digits the
conversion prints, and plain `"0"` when there are none (`Math.random() = 0`). -/
def jsRandomToString36 (randDigits : List (Fin 36)) : String :=
  match randDigits with
  | [] => "0"
  | ds => String.mk ('0' :: '.' :: ds.map base36Char)

/-- Embedding of JS `s.substring(start)`: the characters of `s` from index
`start` on (empty when `start` is past the end). -/
def jsSubstring (s : String) (start : Nat) : String :=
  String.mk (s.data.drop start)

/-- Embedding of `generateTestId`: the template literal
`prefix + "_" + Date.now() + "_" + Math.random().toString(36).substring(7)`. -/
def generateTestId (pfx : String) (nowMillis : Nat) (randDigits : List (Fin 36)) : String :=
  pfx ++ "_" ++ jsNatToString nowMillis ++ "_"
    ++ jsSubstring (jsRandomToString36 randDigits) 7

/-- Identifier shape stated by the spec:
`prefix + "_" + currentTimestampMillis + "_" + shortRandomToken`. -/
def specTestIdFormat (pfx timestampStr token : String) : String :=
  pfx ++ "_" ++ timestampStr ++ "_" ++ token

/-- Short random token the generator actually produces: the base-36
fraction digits of the `Math.random()` value beyond the first five (the
first five, together with the leading `"0."`, are cut off by
`substring(7)`). -/
def shortRandomToken (randDigits : List (Fin 36)) : String :=
  String.mk ((randDigits.map base36Char).drop 5)

theorem generateTestId_eq (pfx : String) (nowMillis : Nat)
    (randDigits : List (Fin 36)) :
    generateTestId pfx nowMillis randDigits
      = pfx ++ "_" ++ jsNatToString nowMillis ++ "_" ++ shortRandomToken randDigits := by
  cases randDigits with
  | nil => rfl
  | cons d ds => rfl

/-- C5: the identifier generator returns exactly the concatenation
`prefix + "_" + t + "_" + r` where `t` is the decimal rendering of the
millisecond timestamp it reads and `r` is the short random token derived
from the `Math.random()` value. -/
theorem generateTestId_is_specified_concatenation (pfx : String)
    (nowMillis : Nat) (randDigits : List (Fin 36)) :
    generateTestId pfx nowMillis randDigits
      = specTestIdFormat pfx (jsNatToString nowMillis) (shortRandomToken randDigits) :=
  generateTestId_eq pfx nowMillis randDigits

/-- C6 (counterexample): two immediately successive calls with the same
prefix can return the same value - here both calls fall in the same
millisecond and observe distinct `Math.random()` values (base-36 fraction
digits `[18]`, i.e. 0.5, versus `[9]`, i.e. 0.25) whose rendered tokens are
both empty after `substring(7)`, so the generated identifiers coincide. -/
theorem successive_ids_can_collide_counterexample :
    (generateTestId "test" 7 [(18 : Fin 36)] = generateTestId "test" 7 [(9 : Fin 36)])
    ∧ (18 : Fin 36) ≠ (9 : Fin 36) := by
  constructor
  · rfl
  · decide

theorem decChar_inj_fin : ∀ a b : Fin 10,
    Char.ofNat (48 + a.val) = Char.ofNat (48 + b.val) → a = b := by
  decide

theorem decChar_ne_underscore_fin : ∀ a : Fin 10, Char.ofNat (48 + a.val) ≠ '_' := by
  decide

theorem base36Char_ne_underscore : ∀ d : Fin 36, base36Char d ≠ '_' := by
  decide

theorem underscore_not_mem_jsNatToString (n : Nat) : '_' ∉ (jsNatToString n).data := by
  unfold jsNatToString
  split
  · decide
  · intro hmem
    replace hmem : '_' ∈ ((Nat.digits 10 n).reverse).map (fun d => Char.ofNat (48 + d)) := hmem
    rcases List.mem_map.mp hmem with ⟨d, hd, hchar⟩
    have hd10 : d < 10 := Nat.digits_lt_base (by norm_num) (List.mem_reverse.mp hd)
    exact decChar_ne_underscore_fin ⟨d, hd10⟩ hchar

theorem underscore_not_mem_shortRandomToken (ds : List (Fin 36)) :
    '_' ∉ (shortRandomToken ds).data := by
  intro hmem
  replace hmem : '_' ∈ (ds.map base36Char).drop 5 := hmem
  rcases List.mem_map.mp (List.mem_of_mem_drop hmem) with ⟨d, _, hchar⟩
  exact base36Char_ne_underscore d hchar

theorem map_decChar_inj : ∀ (l1 l2 : List Nat),
    (∀ d ∈ l1, d < 10) → (∀ d ∈ l2, d < 10) →
    l1.map (fun d => Char.ofNat (48 + d)) = l2.map (fun d => Char.ofNat (48 + d)) →
    l1 = l2 := by
  intro l1
  induction l1 with
  | nil =>
    intro l2 _ _ h
    cases l2 with
    | nil => rfl
    | cons b t2 => simp at h
  | cons a t ih =>
    intro l2 h1 h2 h
    cases l2 with
    | nil => simp at h
    | cons b t2 =>
      simp only [List.map_cons, List.cons.injEq] at h
      have ha : a < 10 := h1 a (List.mem_cons_self a t)
      have hb : b < 10 := h2 b (List.mem_cons_self b t2)
      have hab : a = b := congrArg Fin.val (decChar_inj_fin ⟨a, ha⟩ ⟨b, hb⟩ h.1)
      subst hab
      rw [ih t2 (fun d hd => h1 d (List.mem_cons_of_mem _ hd))
        (fun d hd => h2 d (List.mem_cons_of_mem _ hd)) h.2]

theorem jsNatToString_inj (m n : Nat) (h : jsNatToString m = jsNatToString n) : m = n := by
  unfold jsNatToString at h
  by_cases hm : m = 0 <;> by_cases hn : n = 0
  · rw [hm, hn]
  · exfalso
    rw [if_pos hm, if_neg hn] at h
    have hdata : ['0'] = ((Nat.digits 10 n).reverse).map (fun d => Char.ofNat (48 + d)) :=
      congrArg String.data h
    cases hr : (Nat.digits 10 n).reverse with
    | nil => rw [hr] at hdata; simp at hdata
    | cons d t =>
      cases t with
      | cons d2 t2 => rw [hr] at hdata; simp at hdata
      | nil =>
        rw [hr] at hdata
        simp only [List.map_cons, List.map_nil, List.cons.injEq, and_true] at hdata
        have hd10 : d < 10 := Nat.digits_lt_base (by norm_num)
          (List.mem_reverse.mp (by rw [hr]; exact List.mem_cons_self d []))
        have hd0 : d = 0 := by
          have h48 : Char.ofNat (48 + (0 : Fin 10).val) = Char.ofNat (48 + d) := by
            rw [← hdata]; decide
          exact (congrArg Fin.val (decChar_inj_fin ⟨0, by norm_num⟩ ⟨d, hd10⟩ h48)).symm
        have hdig : Nat.digits 10 n = [0] := by
          have := congrArg List.reverse hr
          rw [List.reverse_reverse] at this
          rw [this, hd0]
          rfl
        have : n = 0 := by
          have hof := Nat.ofDigits_digits 10 n
          rw [hdig] at hof
          simpa [Nat.ofDigits] using hof.symm
        exact hn this
  · exfalso
    rw [if_neg hm, if_pos hn] at h
    have hdata : ['0'] = ((Nat.digits 10 m).reverse).map (fun d => Char.ofNat (48 + d)) :=
      congrArg String.data h.symm
    cases hr : (Nat.digits 10 m).reverse with
    | nil => rw [hr] at hdata; simp at hdata
    | cons d t =>
      cases t with
      | cons d2 t2 => rw [hr] at hdata; simp at hdata
      | nil =>
        rw [hr] at hdata
        simp only [List.map_cons, List.map_nil, List.cons.injEq, and_true] at hdata
        have hd10 : d < 10 := Nat.digits_lt_base (by norm_num)
          (List.mem_reverse.mp (by rw [hr]; exact List.mem_cons_self d []))
        have hd0 : d = 0 := by
          have h48 : Char.ofNat (48 + (0 : Fin 10).val) = Char.ofNat (48 + d) := by
            rw [← hdata]; decide
          exact (congrArg Fin.val (decChar_inj_fin ⟨0, by norm_num⟩ ⟨d, hd10⟩ h48)).symm
        have hdig : Nat.digits 10 m = [0] := by
          have := congrArg List.reverse hr
          rw [List.reverse_reverse] at this
          rw [this, hd0]
          rfl
        have : m = 0 := by
          have hof := Nat.ofDigits_digits 10 m
          rw [hdig] at hof
          simpa [Nat.ofDigits] using hof.symm
        exact hm this
  · rw [if_neg hm, if_neg hn] at h
    have hdata : ((Nat.digits 10 m).reverse).map (fun d => Char.ofNat (48 + d))
        = ((Nat.digits 10 n).reverse).map (fun d => Char.ofNat (48 + d)) :=
      congrArg String.data h
    have hrev := map_decChar_inj _ _
      (fun d hd => Nat.digits_lt_base (by norm_num) (List.mem_reverse.mp hd))
      (fun d hd => Nat.digits_lt_base (by norm_num) (List.mem_reverse.mp hd)) hdata
    exact Nat.digits.injective 10 (List.reverse_injective hrev)

theorem append_underscore_split : ∀ (a1 a2 b1 b2 : List Char),
    '_' ∉ a1 → '_' ∉ a2 → a1 ++ '_' :: b1 = a2 ++ '_' :: b2 → a1 = a2 ∧ b1 = b2 := by
  intro a1
  induction a1 with
  | nil =>
    intro a2 b1 b2 _ h2 h
    cases a2 with
    | nil => simpa using h
    | cons c cs =>
      simp only [List.nil_append, List.cons_append, List.cons.injEq] at h
      exact absurd (by rw [← h.1]; exact List.mem_cons_self '_' cs) h2
  | cons c cs ih =>
    intro a2 b1 b2 h1 h2 h
    cases a2 with
    | nil =>
      simp only [List.nil_append, List.cons_append, List.cons.injEq] at h
      exact absurd (by rw [h.1]; exact List.mem_cons_self '_' cs) h1
    | cons c' cs' =>
      simp only [List.cons_append, List.cons.injEq] at h
      obtain ⟨hcc, hrest⟩ := h
      obtain ⟨hA, hB⟩ := ih cs' b1 b2 (fun hx => h1 (List.mem_cons_of_mem _ hx))
        (fun hx => h2 (List.mem_cons_of_mem _ hx)) hrest
      exact ⟨by rw [hcc, hA], hB⟩

/-- C6 (amended): for one fixed prefix, two calls of the identifier
generator return the same value exactly when they observe the same
millisecond timestamp and `Math.random()` values with the same rendered
token - so distinct timestamps or distinct tokens give distinct
identifiers, but collision is only probabilistically excluded (see the
counterexample: distinct random values can share a token). -/
theorem generateTestId_collision_iff (pfx : String) (t1 t2 : Nat)
    (d1 d2 : List (Fin 36)) :
    generateTestId pfx t1 d1 = generateTestId pfx t2 d2
      ↔ (t1 = t2 ∧ shortRandomToken d1 = shortRandomToken d2) := by
  constructor
  · intro h
    rw [generateTestId_eq, generateTestId_eq] at h
    have hdata := congrArg String.data h
    have hus : ("_" : String).data = ['_'] := rfl
    simp only [String.data_append, hus, List.append_assoc, List.singleton_append] at hdata
    have hcore := List.append_cancel_left hdata
    injection hcore with _ hcore2
    obtain ⟨hts, htok⟩ := append_underscore_split _ _ _ _
      (underscore_not_mem_jsNatToString t1) (underscore_not_mem_jsNatToString t2) hcore2
    exact ⟨jsNatToString_inj t1 t2 (String.ext hts), String.ext htok⟩
  · rintro ⟨rfl, htok⟩
    rw [generateTestId_eq, generateTestId_eq, htok]

/-! ## Negative-path error assertions (claim C7) -/

/-- Vendor error surfaced by a rejected API promise: the HTTP status of the
response and the vendor numeric error code in its body. -/
structure VendorError where
  status : Nat
  code : Nat

/-- Verdict of one test case: an assertion failure fails the test. -/
inductive Verdict
  | passed
  | failed

/-- Embedding of TC-USER-014 "Fail to get non-existent user": the action is
awaited in a try block; reaching the success path fails the test
(`expect(true).toBe(false)`); the catch block asserts HTTP status 400 and
then that the allow-list [400201, 400301] contains the vendor code. -/
def tcUser014 (action : Except VendorError Unit) : Verdict :=
  match action with
  | Except.ok _ => Verdict.failed
  | Except.error e =>
    if e.status = 400 then
      if e.code ∈ ([400201, 400301] : List Nat) then Verdict.passed else Verdict.failed
    else Verdict.failed

/-- Embedding of TC-USER-010 "Fail to create user with user_id exceeding max
length": success path fails the test; the catch block asserts HTTP status
400 and that the allow-list [400305, 400110] contains the vendor code. -/
def tcUser010 (action : Except VendorError Unit) : Verdict :=
  match action with
  | Except.ok _ => Verdict.failed
  | Except.error e =>
    if e.status = 400 then
      if e.code ∈ ([400305, 400110] : List Nat) then Verdict.passed else Verdict.failed
    else Verdict.failed

/-- C7: a negative-path test passes exactly when the action under test
rejects with a vendor error whose HTTP status is 400 and whose numeric code
is a member of the test's allow-list of acceptable codes; any other code,
status, or a resolving action fails the assertion. -/
theorem negative_test_accepts_exactly_allowlisted_400_errors
    (r1 r2 : Except VendorError Unit) :
    (tcUser014 r1 = Verdict.passed
      ↔ ∃ e, r1 = Except.error e ∧ e.status = 400 ∧ e.code ∈ ([400201, 400301] : List Nat))
    ∧ (tcUser010 r2 = Verdict.passed
      ↔ ∃ e, r2 = Except.error e ∧ e.status = 400 ∧ e.code ∈ ([400305, 400110] : List Nat)) := by
  constructor
  · cases r1 with
    | ok a => simp [tcUser014]
    | error e =>
      have hmem : (e.code ∈ ([400201, 400301] : List Nat))
          ↔ (e.code = 400201 ∨ e.code = 400301) := by simp
      rcases Decidable.em (e.status = 400) with h4 | h4 <;>
        rcases Decidable.em (e.code = 400201 ∨ e.code = 400301) with hc | hc <;>
        simp [tcUser014, h4, hmem, hc]
  · cases r2 with
    | ok a => simp [tcUser010]
    | error e =>
      have hmem : (e.code ∈ ([400305, 400110] : List Nat))
          ↔ (e.code = 400305 ∨ e.code = 400110) := by simp
      rcases Decidable.em (e.status = 400) with h4 | h4 <;>
        rcases Decidable.em (e.code = 400305 ∨ e.code = 400110) with hc | hc <;>
        simp [tcUser010, h4, hmem, hc]

/-! ## API client wrapper requests (claims C8, C10)

sendbird-api.ts creates one axios instance with a base URL derived from the
application identifier and static headers, and every `UserAPI` /
`ChannelAPI` / `MessageAPI` operation issues its request through that
instance.  The request each operation assembles is embedded below; the
percent-encoding applied by `encodeURIComponent` is taken as an arbitrary
function parameter, since no claim depends on the encoding itself.
-/

/-- HTTP method used by the wrapper. -/
inductive HttpMethod
  | get
  | post
  | put
  | delete

/-- JSON-like value appearing in request bodies. -/
inductive JsValue
  | str (s : String)
  | num (n : Nat)
  | bool (b : Bool)
  | arr (xs : List JsValue)
  | undef

/-- REST request as assembled by the axios instance: method, full URL,
headers, JSON body fields in literal order, and query parameters. -/
structure ApiRequest where
  method : HttpMethod
  url : String
  headers : List (String × String)
  body : List (String × JsValue)
  params : List (String × Nat)

/-- Vendor base URL derived from the application identifier
(sendbird-api.ts line 8). -/
def baseURL (appId : String) : String :=
  "https://api-" ++ appId ++ ".sendbird.com/v3"

/-- Static headers configured on the axios instance (sendbird-api.ts lines
10-16): JSON content type and the Api-Token authentication header. -/
def apiClientHeaders (apiToken : String) : List (String × String) :=
  [("Content-Type", "application/json"), ("Api-Token", apiToken)]

/-- Request issued through the shared axios instance: the path is resolved
against the configured base URL and the configured headers are attached. -/
def apiClientRequest (appId apiToken : String) (m : HttpMethod) (path : String)
    (body : List (String × JsValue)) (params : List (String × Nat)) : ApiRequest :=
  ⟨m, baseURL appId ++ path, apiClientHeaders apiToken, body, params⟩

/-- JS `x || ''` for an optional string: the empty string when the value is
absent or falsy (the empty string), the value itself otherwise. -/
def jsOrEmptyString (x : Option String) : String :=
  match x with
  | none => ""
  | some s => if s = "" then "" else s

/-- JSON field holding an optional string: `undefined` when absent. -/
def jsOptField (x : Option String) : JsValue :=
  match x with
  | none => JsValue.undef
  | some s => JsValue.str s

/-- Operations of `UserAPI`, `ChannelAPI` and `MessageAPI` with their
arguments (sendbird-api.ts lines 19-129). -/
inductive ApiOperation
  | userCreate (userId nickname : String) (profileUrl : Option String)
  | userGet (userId : String)
  | userUpdate (userId : String) (nickname profileUrl : Option String)
  | userDelete (userId : String)
  | userList (limit : Nat)
  | channelCreate (name : String) (userIds : List String) (isDistinct : Bool)
  | channelGet (channelUrl : String)
  | channelUpdate (channelUrl : String) (name : Option String)
  | channelDelete (channelUrl : String)
  | channelList (limit : Nat)
  | channelInvite (channelUrl : String) (userIds : List String)
  | channelLeave (channelUrl : String) (userIds : List String)
  | messageSend (channelUrl userId message : String) (customType dataPayload : Option String)
  | messageGet (channelUrl : String) (messageId : Nat)
  | messageUpdate (channelUrl : String) (messageId : Nat) (message : String)
  | messageDelete (channelUrl : String) (messageId : Nat)
  | messageList (channelUrl : String) (nowMillis limit : Nat)

/-- Request assembled by each wrapper operation, mirroring the axios calls
in sendbird-api.ts; `enc` stands for `encodeURIComponent`. -/
def buildRequest (enc : String → String) (appId apiToken : String) :
    ApiOperation → ApiRequest
  | ApiOperation.userCreate userId nickname profileUrl =>
    apiClientRequest appId apiToken HttpMethod.post "/users"
      [("user_id", JsValue.str userId), ("nickname", JsValue.str nickname),
        ("profile_url", JsValue.str (jsOrEmptyString profileUrl))] []
  | ApiOperation.userGet userId =>
    apiClientRequest appId apiToken HttpMethod.get ("/users/" ++ enc userId) [] []
  | ApiOperation.userUpdate userId nickname profileUrl =>
    apiClientRequest appId apiToken HttpMethod.put ("/users/" ++ enc userId)
      [("nickname", jsOptField nickname), ("profile_url", jsOptField profileUrl)] []
  | ApiOperation.userDelete userId =>
    apiClientRequest appId apiToken HttpMethod.delete ("/users/" ++ enc userId) [] []
  | ApiOperation.userList limit =>
    apiClientRequest appId apiToken HttpMethod.get "/users" [] [("limit", limit)]
  | ApiOperation.channelCreate name userIds isDistinct =>
    apiClientRequest appId apiToken HttpMethod.post "/group_channels"
      [("name", JsValue.str name), ("user_ids", JsValue.arr (userIds.map JsValue.str)),
        ("is_distinct", JsValue.bool isDistinct)] []
  | ApiOperation.channelGet channelUrl =>
    apiClientRequest appId apiToken HttpMethod.get
      ("/group_channels/" ++ enc channelUrl) [] []
  | ApiOperation.channelUpdate channelUrl name =>
    apiClientRequest appId apiToken HttpMethod.put
      ("/group_channels/" ++ enc channelUrl) [("name", jsOptField name)] []
  | ApiOperation.channelDelete channelUrl =>
    apiClientRequest appId apiToken HttpMethod.delete
      ("/group_channels/" ++ enc channelUrl) [] []
  | ApiOperation.channelList limit =>
    apiClientRequest appId apiToken HttpMethod.get "/group_channels" [] [("limit", limit)]
  | ApiOperation.channelInvite channelUrl userIds =>
    apiClientRequest appId apiToken HttpMethod.post
      ("/group_channels/" ++ enc channelUrl ++ "/invite")
      [("user_ids", JsValue.arr (userIds.map JsValue.str))] []
  | ApiOperation.channelLeave channelUrl userIds =>
    apiClientRequest appId apiToken HttpMethod.put
      ("/group_channels/" ++ enc channelUrl ++ "/leave")
      [("user_ids", JsValue.arr (userIds.map JsValue.str))] []
  | ApiOperation.messageSend channelUrl userId message customType dataPayload =>
    apiClientRequest appId apiToken HttpMethod.post
      ("/group_channels/" ++ enc channelUrl ++ "/messages")
      [("message_type", JsValue.str "MESG"), ("user_id", JsValue.str userId),
        ("message", JsValue.str message), ("custom_type", jsOptField customType),
        ("data", jsOptField dataPayload)] []
  | ApiOperation.messageGet channelUrl messageId =>
    apiClientRequest appId apiToken HttpMethod.get
      ("/group_channels/" ++ enc channelUrl ++ "/messages/" ++ jsNatToString messageId) [] []
  | ApiOperation.messageUpdate channelUrl messageId message =>
    apiClientRequest appId apiToken HttpMethod.put
      ("/group_channels/" ++ enc channelUrl ++ "/messages/" ++ jsNatToString messageId)
      [("message_type", JsValue.str "MESG"), ("message", JsValue.str message)] []
  | ApiOperation.messageDelete channelUrl messageId =>
    apiClientRequest appId apiToken HttpMethod.delete
      ("/group_channels/" ++ enc channelUrl ++ "/messages/" ++ jsNatToString messageId) [] []
  | ApiOperation.messageList channelUrl nowMillis limit =>
    apiClientRequest appId apiToken HttpMethod.get
      ("/group_channels/" ++ enc channelUrl ++ "/messages")
      [] [("message_ts", nowMillis), ("prev_limit", limit), ("next_limit", 0)]

/-- C8: every REST request built by the wrapper - every `UserAPI`,
`ChannelAPI` and `MessageAPI` operation - carries exactly the axios
instance's static headers (so the Api-Token authentication header and the
JSON content type), and its URL is the vendor base URL derived from the
application identifier followed by the operation's path. -/
theorem every_request_authenticated_against_base_url
    (enc : String → String) (appId apiToken : String) (op : ApiOperation) :
    ((buildRequest enc appId apiToken op).headers = apiClientHeaders apiToken)
    ∧ (("Api-Token", apiToken) ∈ (buildRequest enc appId apiToken op).headers)
    ∧ (("Content-Type", "application/json") ∈ (buildRequest enc appId apiToken op).headers)
    ∧ (∃ path, (buildRequest enc appId apiToken op).url = baseURL appId ++ path) := by
  cases op <;>
    exact ⟨rfl, by simp [buildRequest, apiClientRequest, apiClientHeaders],
      by simp [buildRequest, apiClientRequest, apiClientHeaders], ⟨_, rfl⟩⟩

/-- C10: `UserAPI.create` always sends a `profile_url` field that is a
string - never absent, never undefined - and when the profileUrl argument
is omitted or falsy (the empty string), that field is the empty string. -/
theorem user_create_profile_url_empty_when_falsy
    (enc : String → String) (appId apiToken userId nickname : String)
    (profileUrl : Option String) :
    ((profileUrl = none ∨ profileUrl = some "") →
      List.lookup "profile_url"
        (buildRequest enc appId apiToken
          (ApiOperation.userCreate userId nickname profileUrl)).body
        = some (JsValue.str ""))
    ∧ (∃ s, List.lookup "profile_url"
        (buildRequest enc appId apiToken
          (ApiOperation.userCreate userId nickname profileUrl)).body
        = some (JsValue.str s)) := by
  constructor
  · rintro (rfl | rfl) <;> rfl
  · exact ⟨jsOrEmptyString profileUrl, rfl⟩

/-- Witness for the C10 theorem at a concrete invocation without a
profileUrl argument. -/
theorem user_create_profile_url_empty_when_falsy_witness :
    List.lookup "profile_url"
      (buildRequest id "appid" "token"
        (ApiOperation.userCreate "user_1" "TestUser" none)).body
      = some (JsValue.str "") :=
  (user_create_profile_url_empty_when_falsy id "appid" "token" "user_1" "TestUser" none).1
    (Or.inl rfl)

/-! ## SDK session harness (claim C9) -/

/-- Sendbird SDK instance held by the session harness; `initSendbird`
creates it from the application identifier. -/
structure SendbirdInstance where
  appId : String

/-- Vendor SDK call issued by the session harness. -/
inductive SdkCall
  | connect (userId : String) (accessToken : Option String)
  | disconnect

/-- JS truthiness of an optional string (the `if (accessToken)` test):
false for an absent value and for the empty string. -/
def jsTruthyString (x : Option String) : Bool :=
  match x with
  | none => false
  | some s => if s = "" then false else true

/-- Embedding of `connectUser` (SDK session harness lines 35-44): throws
"Sendbird SDK not initialized. Call initSendbird() first." when the
module-level instance is null; otherwise forwards to the SDK's connect,
passing the access token only when it is truthy.  Returns the vendor calls
attempted together with the outcome. -/
def connectUser (sbInstance : Option SendbirdInstance) (userId : String)
    (accessToken : Option String) : List SdkCall × Except String Unit :=
  match sbInstance with
  | none => ([], Except.error "Sendbird SDK not initialized. Call initSendbird() first.")
  | some _ =>
    if jsTruthyString accessToken then
      ([SdkCall.connect userId accessToken], Except.ok ())
    else
      ([SdkCall.connect userId none], Except.ok ())

/-- Embedding of `disconnectUser` (SDK session harness lines 49-54): throws
"Sendbird SDK not initialized." when the module-level instance is null;
otherwise forwards to the SDK's disconnect. -/
def disconnectUser (sbInstance : Option SendbirdInstance) :
    List SdkCall × Except String Unit :=
  match sbInstance with
  | none => ([], Except.error "Sendbird SDK not initialized.")
  | some _ => ([SdkCall.disconnect], Except.ok ())

/-- C9 (counterexample): the claim's parenthetical "with the access token
exactly when one is supplied" fails: a supplied empty-string access token
is falsy in JS, so `connectUser` forwards to connect without it. -/
theorem connect_empty_token_not_forwarded_counterexample :
    (connectUser (some ⟨"appid"⟩) "alice" (some "")
      = ([SdkCall.connect "alice" none], Except.ok ()))
    ∧ (some "" : Option String) ≠ none := by
  exact ⟨rfl, by simp⟩

/-- C9 (amended): before `initSendbird` (instance null), `connectUser` and
`disconnectUser` throw an error whose message states the SDK is not
initialized and attempt no vendor call; after initialization, `connectUser`
forwards to the SDK's connect with the access token exactly when a truthy
(non-empty) one is supplied - an omitted or empty-string token connects
without a token - and `disconnectUser` forwards to disconnect. -/
theorem connect_disconnect_require_initialization
    (userId : String) (accessToken : Option String) (inst : SendbirdInstance)
    (t : String) (ht : t ≠ "") :
    (connectUser none userId accessToken
      = ([], Except.error "Sendbird SDK not initialized. Call initSendbird() first."))
    ∧ (disconnectUser none = ([], Except.error "Sendbird SDK not initialized."))
    ∧ (connectUser (some inst) userId (some t)
      = ([SdkCall.connect userId (some t)], Except.ok ()))
    ∧ (connectUser (some inst) userId none
      = ([SdkCall.connect userId none], Except.ok ()))
    ∧ (connectUser (some inst) userId (some "")
      = ([SdkCall.connect userId none], Except.ok ()))
    ∧ (disconnectUser (some inst) = ([SdkCall.disconnect], Except.ok ())) := by
  refine ⟨rfl, rfl, ?_, rfl, rfl, rfl⟩
  simp [connectUser, jsTruthyString, ht]

/-- Witness for the C9 amended theorem at concrete inputs. -/
theorem connect_disconnect_require_initialization_witness :
    (connectUser none "alice" (some "tok")
      = ([], Except.error "Sendbird SDK not initialized. Call initSendbird() first."))
    ∧ (disconnectUser none = ([], Except.error "Sendbird SDK not initialized."))
    ∧ (connectUser (some ⟨"appid"⟩) "alice" (some "tok")
      = ([SdkCall.connect "alice" (some "tok")], Except.ok ()))
    ∧ (connectUser (some ⟨"appid"⟩) "alice" none
      = ([SdkCall.connect "alice" none], Except.ok ()))
    ∧ (connectUser (some ⟨"appid"⟩) "alice" (some "")
      = ([SdkCall.connect "alice" none], Except.ok ()))
    ∧ (disconnectUser (some ⟨"appid"⟩) = ([SdkCall.disconnect], Except.ok ())) :=
  connect_disconnect_require_initialization "alice" (some "tok") ⟨"appid"⟩ "tok"
    (by simp)
